import Mathlib

/-!
Shallow embedding of the `idf_wmonitor` host-side client (client.go,
coredump.go) and proofs about its protocol behaviour.

Machine integers are modelled as `Nat` (all relevant Go values are
non-negative: lengths, sizes, `uint8`/`uint16`/`uint32` fields, and the
`timeouts` counter which only ever increments from zero).  Wall-clock time
is modelled as a `Nat` count of milliseconds; Go's `time.Since(t)` under a
monotone clock is `now - t`.  Byte strings are `List Nat`, error values are
explicit inductives, and effectful functions are translated to pure
functions that also return the list of protocol bytes they send and/or an
event trace.
-/

namespace IdfWmonitor

/-! ### Protocol opcodes (client.go, const block) -/

def cmdPrintStdout : Nat := 0
def cmdPrintStderr : Nat := 1
def cmdPong : Nat := 5
def cmdOTAProgress : Nat := 6
def cmdOTASuccess : Nat := 7
def cmdOTAFailed : Nat := 8
def cmdConfig : Nat := 9
def cmdPing : Nat := 128
def cmdReboot : Nat := 129
def cmdOTA : Nat := 130
def cmdContinue : Nat := 131
def cmdCoredumpRead : Nat := 132
def cmdCoredumpErase : Nat := 133
def cmdGetConfig : Nat := 134
def cmdSetConfig : Nat := 135

/-- `otaTimeout = time.Second * 5`, in milliseconds. -/
def otaTimeout : Nat := 5000

def hostConfigVersion : Nat := 1
def hostConfigSSIDLen : Nat := 33
def hostConfigPasswordLen : Nat := 64

/-! ### Throttled writer (client.go, `write`) -/

/-- `blocksize := 100 * 1024` in `write`. -/
def blocksize : Nat := 100 * 1024

/-- Observable events of one call to `write`: a `conn.Write` of a chunk of a
given size, or a `time.Sleep(interval)` pacing delay. -/
inductive WriteEvent where
  | chunk (size : Nat)
  | sleep
deriving DecidableEq, Repr

/-- The loop body of `write` (client.go:135-147): starting at `pos`, while
`pos < len`, write `data[pos:end]` with `end = min (pos+blocksize) len`,
then `if pos < len(data) { time.Sleep(interval) }`, then `pos += blocksize`.
The inner conditional is transcribed exactly as in the source. -/
def writeLoop (len pos : Nat) : List WriteEvent :=
  if _h : pos < len then
    let e := min (pos + blocksize) len
    (WriteEvent.chunk (e - pos) :: (if pos < len then [WriteEvent.sleep] else []))
      ++ writeLoop len (pos + blocksize)
  else
    []
termination_by len - pos
decreasing_by simp only [blocksize]; omega

/-- Trace of `write` on a connected client for a payload of length `len`. -/
def writeTrace (len : Nat) : List WriteEvent := writeLoop len 0

example : writeTrace 0 = [] := by simp [writeTrace, writeLoop]

/-! ### Data model (client.go, `Host`, `HostConfig`, `Client`) -/

/-- `Host` (scanner.go): device name (`Host`) and `"ip:port"` address
string (`Addr`).  Strings are modelled as character lists. -/
structure Host where
  host : List Char
  addr : List Char
deriving DecidableEq, Repr

/-- `HostConfig` (client.go): Wi-Fi provisioning record.  `WifiSSID` and
`WifiPassword` are byte strings; `Version` and `WifiMode` are `uint8`
fields, modelled as `Nat` (Go's type keeps them below 256, and no
truncating conversion occurs anywhere in the code paths modelled here). -/
structure HostConfig where
  version : Nat
  wifiSSID : List Nat
  wifiPassword : List Nat
  wifiMode : Nat
deriving DecidableEq, Repr

/-- The mutable protocol state of a `Client` (client.go): the nullable
connection handle (modelled as an `Option` of an abstract handle id), the
consecutive-timeout counter, OTA transfer size, OTA last-liveness timestamp
(ms), and the presence of a pending `onConfig` callback. -/
structure ClientState where
  conn : Option Nat
  timeouts : Nat
  otaSize : Nat
  otaLastMessage : Nat
  onConfig : Bool
deriving DecidableEq, Repr

/-- `isFlashingOTA` (client.go:121-123):
`c.otaSize > 0 && time.Since(c.otaLastMessage) < otaTimeout`. -/
def isFlashingOTA (c : ClientState) (now : Nat) : Bool :=
  decide (0 < c.otaSize) && decide (now - c.otaLastMessage < otaTimeout)

/-! ### Connection manager (client.go, `Connect` / `Close`) -/

/-- Outcome of `net.Dial`: a fresh handle, or a dial error with message
text `e`. -/
inductive DialResult where
  | ok (handle : Nat)
  | err (e : List Char)
deriving DecidableEq, Repr

/-- The error string built on dial failure (client.go:96):
`fmt.Errorf("error connecting to %s: %v", c.Host.Host, err)`. -/
def connectErrorMsg (h : Host) (e : List Char) : List Char :=
  "error connecting to ".toList ++ (h.host ++ (": ".toList ++ e))

/-- `Connect` (client.go:93-105).  Returns the new state, the returned
error (as message text) and the list of command bytes sent.  On success the
handle is stored, `timeouts` and `otaSize` are reset to zero, and the
single byte `cmdCoredumpRead` is written (its own write error is
discarded by the source). -/
def Connect (h : Host) (c : ClientState) (r : DialResult) :
    ClientState × Option (List Char) × List Nat :=
  match r with
  | .err e => (c, some (connectErrorMsg h e), [])
  | .ok handle =>
      ({ c with conn := some handle, timeouts := 0, otaSize := 0 },
       none, [cmdCoredumpRead])

/-- Observable steps of `Close`: an assignment to the `conn` field, or the
`conn.Close()` syscall on a captured handle. -/
inductive CloseEvent where
  | setConn (v : Option Nat)
  | closeSocket (handle : Nat)
deriving DecidableEq, Repr

/-- `Close` (client.go:107-119).  `closeErr` is the result of the
underlying `conn.Close()` syscall (an abstract error id when it fails).
Returns the new state, the returned error, and the ordered event trace. -/
def Close (c : ClientState) (closeErr : Option Nat) :
    ClientState × Option Nat × List CloseEvent :=
  match c.conn with
  | none => (c, none, [])
  | some handle =>
      match closeErr with
      | some e =>
          ({ c with conn := some handle }, some e,
           [.setConn none, .closeSocket handle, .setConn (some handle)])
      | none =>
          ({ c with conn := none }, none,
           [.setConn none, .closeSocket handle])

/-! ### Liveness and retry policy (client.go, `handleError`) -/

/-- Classification of a non-nil Go error as seen by `handleError`: a
`*net.OpError` whose `Timeout()` is the given boolean, or any other
error value. -/
inductive NetErr where
  | opError (isTimeout : Bool)
  | other
deriving DecidableEq, Repr

/-- `handleError` (client.go:206-221).  Input is the (possibly nil) error;
output is the returned boolean (`true` = suppressed / no error), the new
state, and the command bytes sent.  Transcribed branch for branch. -/
def handleError (c : ClientState) (now : Nat) (err : Option NetErr) :
    Bool × ClientState × List Nat :=
  match err with
  | some e =>
      match e with
      | .opError isTimeout =>
          if isTimeout && c.timeouts == 0 then
            if isFlashingOTA c now then
              (true, c, [])
            else
              (true, { c with timeouts := c.timeouts + 1 }, [cmdPing])
          else
            (false, c, [])
      | .other => (false, c, [])
  | none => (true, c, [])

/-! ### OTA transfer controller (client.go, `Flash`, `Run` OTA cases) -/

/-- Big-endian 32-bit encoding, as written by `binary.Write(&buf,
binary.BigEndian, uint32(len(data)))`. -/
def u32be (n : Nat) : List Nat :=
  [n / 2 ^ 24 % 256, n / 2 ^ 16 % 256, n / 2 ^ 8 % 256, n % 256]

/-- Big-endian 16-bit encoding. -/
def u16be (n : Nat) : List Nat :=
  [n / 2 ^ 8 % 256, n % 256]

/-- `Flash` (client.go:381-393), after the image file has been read into
`data`: record the image length as `otaSize` and `now` as
`otaLastMessage`, then hand the frame `cmdOTA ++ u32be len ++ data` to the
throttled writer.  Returns the new state and the frame. -/
def Flash (c : ClientState) (data : List Nat) (now : Nat) :
    ClientState × List Nat :=
  ({ c with otaSize := data.length, otaLastMessage := now },
   cmdOTA :: u32be data.length ++ data)

/-- The `cmdOTAProgress` dispatcher case (client.go:284-295): if no
transfer is active the frame is ignored; otherwise the percentage
`int(offset) * 100 / c.otaSize` is printed and the liveness timestamp is
refreshed.  Returns the new state and the printed percentage (if any). -/
def runOTAProgress (c : ClientState) (now : Nat) (offset : Nat) :
    ClientState × Option Nat :=
  if isFlashingOTA c now then
    ({ c with otaLastMessage := now }, some (offset * 100 / c.otaSize))
  else
    (c, none)

/-! ### Config codec (client.go, `SetConfig` and the `cmdConfig` case) -/

/-- NUL-padding loop of `SetConfig`: `for len(d) < n { d = append(d, 0) }`.
Appends nothing when the string is already at least `n` bytes long. -/
def padNul (s : List Nat) (n : Nat) : List Nat :=
  s ++ List.replicate (n - s.length) 0

/-- `bytes.Trim(data, "\x00")`: remove NUL bytes from both ends. -/
def trimNul (l : List Nat) : List Nat :=
  ((l.dropWhile (· == 0)).reverse.dropWhile (· == 0)).reverse

/-- The bytes `SetConfig` (client.go:228-248) appends after the opcode and
the 16-bit length field: version byte, NUL-padded SSID, NUL-padded
password, mode byte.  Note the source writes the constant
`hostConfigVersion`, not `cfg.Version`. -/
def setConfigPayload (cfg : HostConfig) : List Nat :=
  hostConfigVersion ::
    padNul cfg.wifiSSID hostConfigSSIDLen ++
    padNul cfg.wifiPassword hostConfigPasswordLen ++
    [cfg.wifiMode]

/-- The complete frame written by `SetConfig`: opcode, then the fixed
16-bit length `hostConfigSSIDLen + hostConfigPasswordLen + 2 = 99`
(written regardless of the actual payload size), then the payload. -/
def setConfigFrame (cfg : HostConfig) : List Nat :=
  cmdSetConfig ::
    u16be (hostConfigSSIDLen + hostConfigPasswordLen + 2) ++
    setConfigPayload cfg

/-- The decoding performed by the `cmdConfig` case of `Run`
(client.go:340-360) on the bytes following the 16-bit size field: a
version byte, a 33-byte NUL-trimmed SSID, a 64-byte NUL-trimmed password
and a mode byte.  `none` when the stream holds fewer than 99 bytes
(`io.ReadFull` / `binary.Read` would fail). -/
def decodeConfig (b : List Nat) : Option HostConfig :=
  if b.length < 99 then
    none
  else
    some
      { version := b.headD 0
        wifiSSID := trimNul ((b.drop 1).take hostConfigSSIDLen)
        wifiPassword :=
          trimNul ((b.drop (1 + hostConfigSSIDLen)).take hostConfigPasswordLen)
        wifiMode := (b.drop (1 + hostConfigSSIDLen + hostConfigPasswordLen)).headD 0 }

/-- `Reboot` (client.go:376-379) sends the single byte `cmdReboot`. -/
def rebootSends : List Nat := [cmdReboot]

/-- Tail of the `cmdConfig` dispatcher case (client.go:361-368): consume
the pending callback if present, otherwise issue a reboot request; in
either case clear `onConfig`.  Returns the new state, the number of
callback invocations performed, and the command bytes sent. -/
def dispatchConfig (c : ClientState) (_cfg : HostConfig) :
    ClientState × Nat × List Nat :=
  if c.onConfig then
    ({ c with onConfig := false }, 1, [])
  else
    ({ c with onConfig := false }, 0, rebootSends)

/-- The whole `cmdConfig` dispatcher case (client.go:333-368): read the
16-bit `size`; when `size > 0` decode a `HostConfig` from the following
bytes (`none` when that read fails), when `size = 0` keep the zero-valued
`HostConfig`; then dispatch to the callback or to `Reboot`. -/
def runConfigCase (c : ClientState) (size : Nat) (body : List Nat) :
    Option (ClientState × Nat × List Nat) :=
  if size = 0 then
    some (dispatchConfig c ⟨0, [], [], 0⟩)
  else
    (decodeConfig body).map (dispatchConfig c)

/-! ### Core-dump handling (client.go `cmdCoredumpRead` case, coredump.go) -/

/-- The `cmdCoredumpRead` dispatcher case (client.go:310-329), given the
received blob and the `del` value the core-dump workflow would return:
an empty blob answers `cmdContinue` without invoking the workflow; a
non-empty blob runs the workflow and answers `cmdCoredumpErase` when
`del` is true, `cmdContinue` otherwise.  Returns (workflow invoked?,
command bytes sent). -/
def runCoredumpRead (blob : List Nat) (del : Bool) : Bool × List Nat :=
  if blob.length = 0 then
    (false, [cmdContinue])
  else
    (true, if del then [cmdCoredumpErase] else [cmdContinue])

/-- Whether the dispatcher hands the blob to `DisplayCoreDump`. -/
def coredumpPassedToWorkflow (blob : List Nat) : Bool :=
  (runCoredumpRead blob false).1

/-- Go slice expression `data[i:]` on a slice with `cap = len` (the blob
is built by `make([]byte, blobSize)`): defined only when `i ≤ len`,
otherwise the program panics. -/
def sliceFrom (data : List Nat) (i : Nat) : Option (List Nat) :=
  if i ≤ data.length then some (data.drop i) else none

/-! ### Substring predicate

Used to state what "the error wraps the address / host name" means for
the error text built by `Connect`. -/

/-- `startsWith hay needle`: `needle` is an initial segment of `hay`. -/
def startsWith : List Char → List Char → Bool
  | _, [] => true
  | [], _ :: _ => false
  | a :: as, b :: bs => a == b && startsWith as bs

/-- `containsSeq hay needle`: `needle` occurs contiguously in `hay`. -/
def containsSeq : List Char → List Char → Bool
  | [], needle => startsWith [] needle
  | a :: t, needle => startsWith (a :: t) needle || containsSeq t needle

/-! ### Helper lemmas -/

theorem startsWith_append (b t : List Char) : startsWith (b ++ t) b = true := by
  induction b with
  | nil => cases t <;> rfl
  | cons x xs ih => simp [startsWith, ih]

theorem containsSeq_append (a b t : List Char) :
    containsSeq (a ++ (b ++ t)) b = true := by
  induction a with
  | nil =>
      cases hb : b ++ t with
      | nil => cases b with
        | nil => rfl
        | cons x xs => simp at hb
      | cons y ys => simp [containsSeq, ← hb, startsWith_append]
  | cons x xs ih => simp [containsSeq, ih]

theorem writeLoop_nil (len pos : Nat) (h : ¬ pos < len) : writeLoop len pos = [] := by
  rw [writeLoop]
  simp [h]

theorem writeLoop_cons (len pos : Nat) (h : pos < len) :
    writeLoop len pos =
      WriteEvent.chunk (min (pos + blocksize) len - pos) :: WriteEvent.sleep ::
        writeLoop len (pos + blocksize) := by
  rw [writeLoop]
  simp [h]

theorem writeLoop_getLast (len : Nat) :
    ∀ pos, pos < len → (writeLoop len pos).getLast? = some WriteEvent.sleep := by
  have key : ∀ m pos, len - pos = m → pos < len →
      (writeLoop len pos).getLast? = some WriteEvent.sleep := by
    intro m
    induction m using Nat.strong_induction_on with
    | _ m ih =>
        intro pos hm hpos
        rw [writeLoop_cons len pos hpos]
        by_cases hnext : pos + blocksize < len
        · rw [writeLoop_cons len (pos + blocksize) hnext,
            List.getLast?_cons_cons, List.getLast?_cons_cons,
            ← writeLoop_cons len (pos + blocksize) hnext]
          exact ih (len - (pos + blocksize))
            (by simp only [blocksize] at *; omega) (pos + blocksize) rfl hnext
        · rw [writeLoop_nil len (pos + blocksize) hnext]
          rfl
  exact fun pos => key (len - pos) pos rfl

theorem padNul_length (s : List Nat) (n : Nat) (h : s.length ≤ n) :
    (padNul s n).length = n := by
  simp [padNul]
  omega

theorem dropWhile_zero_replicate (k : Nat) (t : List Nat) :
    (List.replicate k 0 ++ t).dropWhile (· == 0) = t.dropWhile (· == 0) := by
  induction k with
  | zero => simp
  | succ n ih => simp [List.replicate_succ, List.dropWhile_cons, ih]

theorem trimNul_pad (s : List Nat) (k : Nat) :
    trimNul (s ++ List.replicate k 0) = trimNul s := by
  unfold trimNul
  rw [List.dropWhile_append]
  by_cases h : (s.dropWhile (· == 0)).isEmpty
  · have hrep : (List.replicate k (0 : Nat)).dropWhile (· == 0) = [] := by
      simp [dropWhile_zero_replicate k []]
    rw [List.isEmpty_iff] at h
    simp [h, hrep]
  · rw [if_neg h, List.reverse_append, List.reverse_replicate,
      dropWhile_zero_replicate]

theorem trimNul_padNul (s : List Nat) (n : Nat) :
    trimNul (padNul s n) = trimNul s :=
  trimNul_pad s (n - s.length)

/-! ### Claim C1 -/

/-- Claim C1: the claim says the pacing delay is inserted between
consecutive chunks but not after the final chunk.  In the source, the
guard `if pos < len(data)` before `time.Sleep` is the loop condition
itself and is therefore always true, so a delay follows *every* chunk,
including the final one: a one-byte payload produces the trace
`[chunk 1, sleep]`, and for every non-empty payload the trace ends with a
sleep event. -/
theorem write_sleeps_after_final_chunk :
    writeTrace 1 = [WriteEvent.chunk 1, WriteEvent.sleep] ∧
    ∀ len, 0 < len → (writeTrace len).getLast? = some WriteEvent.sleep := by
  constructor
  · have h2 : ¬ (0 + blocksize < 1) := by simp [blocksize]
    rw [writeTrace, writeLoop_cons 1 0 (by omega),
      writeLoop_nil 1 (0 + blocksize) h2]
    simp [blocksize]
  · intro len h
    exact writeLoop_getLast len 0 h

/-- Claim C1, witness: the trace of a 3-byte payload ends with a pacing
delay. -/
theorem write_sleeps_after_final_chunk_witness :
    (writeTrace 3).getLast? = some WriteEvent.sleep :=
  write_sleeps_after_final_chunk.2 3 (by decide)

/-! ### Claim C2 -/

/-- Claim C2, counterexample: with the timeout counter already at 1 and an
OTA transfer active (`otaSize = 10`, fresh liveness timestamp), a timeout
error is *not* suppressed — `handleError` returns `false` — contradicting
"while an OTA transfer is active, every timeout is suppressed
indefinitely". -/
theorem handleError_ota_timeout_surfaced :
    isFlashingOTA ⟨some 1, 1, 10, 0, false⟩ 0 = true ∧
    handleError ⟨some 1, 1, 10, 0, false⟩ 0 (some (NetErr.opError true)) =
      (false, ⟨some 1, 1, 10, 0, false⟩, []) := by
  decide

/-- Claim C2 (amended): a timeout arriving with the counter at zero is
suppressed — silently (no state change, no keepalive) when a transfer is
active, and with a counter increment plus a single `cmdPing` keepalive
otherwise; a timeout arriving with a nonzero counter, and every non-timeout
error, is surfaced (`handleError` returns `false`); a nil error is
accepted.  Since the transfer-active branch does not increment the
counter, a timeout streak that starts during a transfer is suppressed
indefinitely. -/
theorem handleError_policy (c : ClientState) (now : Nat) :
    handleError c now none = (true, c, []) ∧
    (c.timeouts = 0 → isFlashingOTA c now = false →
      handleError c now (some (NetErr.opError true)) =
        (true, { c with timeouts := c.timeouts + 1 }, [cmdPing])) ∧
    (c.timeouts = 0 → isFlashingOTA c now = true →
      handleError c now (some (NetErr.opError true)) = (true, c, [])) ∧
    (c.timeouts ≠ 0 →
      handleError c now (some (NetErr.opError true)) = (false, c, [])) ∧
    handleError c now (some (NetErr.opError false)) = (false, c, []) ∧
    handleError c now (some NetErr.other) = (false, c, []) := by
  refine ⟨rfl, ?_, ?_, ?_, ?_, rfl⟩
  · intro h0 hf
    simp [handleError, h0, hf]
  · intro h0 hf
    simp [handleError, h0, hf]
  · intro h0
    simp [handleError, h0]
  · simp [handleError]

/-- Claim C2, witness: a first timeout on an idle client is suppressed,
bumps the counter and sends one keepalive ping. -/
theorem handleError_policy_witness :
    handleError ⟨some 1, 0, 0, 0, false⟩ 0 (some (NetErr.opError true)) =
      (true, ⟨some 1, 1, 0, 0, false⟩, [cmdPing]) :=
  (handleError_policy ⟨some 1, 0, 0, 0, false⟩ 0).2.1 rfl (by decide)

/-! ### Claim C3 -/

/-- Claim C3, counterexample: `Flash` of an *empty* image records
`otaSize = 0`, so `isFlashingOTA` is false immediately afterwards — the
claim's "true immediately after Flash records the image length and
timestamp" fails for a zero-length image. -/
theorem flash_empty_image_not_flashing :
    ((Flash ⟨some 1, 0, 0, 0, false⟩ [] 5).1.otaSize = 0) ∧
    isFlashingOTA (Flash ⟨some 1, 0, 0, 0, false⟩ [] 5).1 5 = false := by
  decide

/-- Claim C3 (amended): `isFlashingOTA` is true exactly when `otaSize > 0`
and less than 5 seconds have elapsed since the last liveness timestamp; it
is true immediately after `Flash` records a *positive* image length and
the timestamp, becomes false automatically once 5 seconds pass with no
further event, and that path leaves `otaSize` untouched. -/
theorem isFlashingOTA_watchdog (c : ClientState) (data : List Nat)
    (now t : Nat) :
    (isFlashingOTA c now = true ↔
      0 < c.otaSize ∧ now - c.otaLastMessage < otaTimeout) ∧
    (0 < data.length → isFlashingOTA (Flash c data now).1 now = true) ∧
    (now + otaTimeout ≤ t → isFlashingOTA (Flash c data now).1 t = false) ∧
    (Flash c data now).1.otaSize = data.length := by
  refine ⟨?_, ?_, ?_, rfl⟩
  · simp [isFlashingOTA]
  · intro h
    simp [Flash, isFlashingOTA, h, otaTimeout]
  · intro h
    simp only [otaTimeout] at h
    have ht : ¬ (t - now < 5000) := by omega
    simp [Flash, isFlashingOTA, otaTimeout, ht]

/-- Claim C3, witness: flashing a 1-byte image at time 0 makes
`isFlashingOTA` true at time 0, false at time 5000, with `otaSize` still
1. -/
theorem isFlashingOTA_watchdog_witness :
    isFlashingOTA (Flash ⟨some 1, 0, 0, 0, false⟩ [7] 0).1 0 = true ∧
    isFlashingOTA (Flash ⟨some 1, 0, 0, 0, false⟩ [7] 0).1 5000 = false :=
  ⟨(isFlashingOTA_watchdog ⟨some 1, 0, 0, 0, false⟩ [7] 0 5000).2.1 (by decide),
   (isFlashingOTA_watchdog ⟨some 1, 0, 0, 0, false⟩ [7] 0 5000).2.2.1 (by decide)⟩

/-! ### Claim C4 -/

/-- Claim C4, counterexample: for an SSID of 34 bytes (34 × `'a'`) the
`SetConfig` padding loop appends nothing and does not truncate, so the
payload after the opcode and 16-bit length field is 100 bytes, not 99, and
decoding the fixed 99-byte layout yields a truncated SSID, a corrupted
password and the wrong mode — the round trip fails. -/
theorem setConfig_long_ssid_breaks_roundtrip :
    (setConfigPayload ⟨1, List.replicate 34 97, [], 1⟩).length = 100 ∧
    decodeConfig (setConfigPayload ⟨1, List.replicate 34 97, [], 1⟩) =
      some ⟨1, List.replicate 33 97, [97], 0⟩ ∧
    ¬ ((setConfigPayload ⟨1, List.replicate 34 97, [], 1⟩).length = 99 ∧
       decodeConfig (setConfigPayload ⟨1, List.replicate 34 97, [], 1⟩) =
         some ⟨hostConfigVersion, trimNul (List.replicate 34 97),
           trimNul [], 1⟩) := by
  decide

/-- Claim C4 (amended): for every `HostConfig` whose SSID is at most 33
bytes and whose password is at most 64 bytes, the encoded payload after
the opcode and 16-bit length field is exactly 99 bytes (the length field
itself is the fixed big-endian 99), and decoding the identical byte layout
yields the NUL-trimmed SSID, the NUL-trimmed password, and the same mode
(the version byte decodes to the constant `hostConfigVersion` the encoder
writes). -/
theorem setConfig_roundtrip (cfg : HostConfig)
    (hs : cfg.wifiSSID.length ≤ hostConfigSSIDLen)
    (hp : cfg.wifiPassword.length ≤ hostConfigPasswordLen) :
    (setConfigPayload cfg).length = 99 ∧
    setConfigFrame cfg = cmdSetConfig :: 0 :: 99 :: setConfigPayload cfg ∧
    decodeConfig (setConfigPayload cfg) =
      some { version := hostConfigVersion
             wifiSSID := trimNul cfg.wifiSSID
             wifiPassword := trimNul cfg.wifiPassword
             wifiMode := cfg.wifiMode } := by
  obtain ⟨v, ssid, pw, m⟩ := cfg
  simp only at hs hp
  have hS : (padNul ssid hostConfigSSIDLen).length = hostConfigSSIDLen :=
    padNul_length _ _ hs
  have hP : (padNul pw hostConfigPasswordLen).length = hostConfigPasswordLen :=
    padNul_length _ _ hp
  have hb : setConfigPayload ⟨v, ssid, pw, m⟩ =
      hostConfigVersion ::
        (padNul ssid hostConfigSSIDLen ++
          (padNul pw hostConfigPasswordLen ++ [m])) := by
    simp [setConfigPayload]
  have hlen : (setConfigPayload ⟨v, ssid, pw, m⟩).length = 99 := by
    rw [hb]
    simp only [List.length_cons, List.length_append, hS, hP]
    rfl
  have h1 : (setConfigPayload ⟨v, ssid, pw, m⟩).drop 1 =
      padNul ssid hostConfigSSIDLen ++
        (padNul pw hostConfigPasswordLen ++ [m]) := by
    rw [hb]
    simp
  have h2 : (setConfigPayload ⟨v, ssid, pw, m⟩).drop (1 + hostConfigSSIDLen) =
      padNul pw hostConfigPasswordLen ++ [m] := by
    rw [Nat.add_comm 1 hostConfigSSIDLen, hb, List.drop_succ_cons]
    exact List.drop_left' hS
  have h3 : (setConfigPayload ⟨v, ssid, pw, m⟩).drop
      (1 + hostConfigSSIDLen + hostConfigPasswordLen) = [m] := by
    rw [show 1 + hostConfigSSIDLen + hostConfigPasswordLen =
        (hostConfigSSIDLen + hostConfigPasswordLen) + 1 from by omega,
      hb, List.drop_succ_cons, ← List.append_assoc]
    exact List.drop_left' (by simp [hS, hP])
  refine ⟨hlen, rfl, ?_⟩
  rw [decodeConfig, if_neg (by omega)]
  rw [h1, h2, h3, hb]
  simp [List.take_left' hS, List.take_left' hP, trimNul_padNul]

/-- Claim C4, witness: the spec's example record
`{version 1, ssid "X", password "Y", mode Station}` (bytes 88, 89, mode 1)
encodes to a 99-byte payload and decodes back to itself. -/
theorem setConfig_roundtrip_witness :
    (setConfigPayload ⟨1, [88], [89], 1⟩).length = 99 ∧
    setConfigFrame ⟨1, [88], [89], 1⟩ =
      cmdSetConfig :: 0 :: 99 :: setConfigPayload ⟨1, [88], [89], 1⟩ ∧
    decodeConfig (setConfigPayload ⟨1, [88], [89], 1⟩) =
      some ⟨hostConfigVersion, trimNul [88], trimNul [89], 1⟩ :=
  setConfig_roundtrip ⟨1, [88], [89], 1⟩ (by decide) (by decide)

/-! ### Claim C5 -/

/-- Claim C5: on a core-dump-read response, an empty blob answers
`cmdContinue` without ever invoking the core-dump workflow; a non-empty
blob runs the workflow, after which the reply is `cmdCoredumpErase`
exactly when the user chose delete and `cmdContinue` otherwise. -/
theorem coredumpRead_dispatch (blob : List Nat) (del : Bool) :
    (blob = [] → runCoredumpRead blob del = (false, [cmdContinue])) ∧
    (blob ≠ [] →
      runCoredumpRead blob del =
        (true, if del then [cmdCoredumpErase] else [cmdContinue])) := by
  constructor
  · intro h
    subst h
    rfl
  · intro h
    simp [runCoredumpRead, List.length_eq_zero, h]

/-- Claim C5, witness: an empty blob answers continue without the
workflow; a 3-byte blob with the user choosing delete answers erase. -/
theorem coredumpRead_dispatch_witness :
    runCoredumpRead [] false = (false, [cmdContinue]) ∧
    runCoredumpRead [1, 2, 3] true = (true, [cmdCoredumpErase]) :=
  ⟨(coredumpRead_dispatch [] false).1 rfl,
   (coredumpRead_dispatch [1, 2, 3] true).2 (by decide)⟩

/-! ### Claim C6 -/

/-- Claim C6: on a config response frame — whether the 16-bit size is zero
or the body decodes to a config — the pending callback, when present, is
invoked exactly once and then cleared; when absent, a reboot request is
issued instead (and the pending slot stays cleared). -/
theorem configCase_dispatch (c : ClientState) (size : Nat) (body : List Nat)
    (cfg : HostConfig) :
    (runConfigCase c 0 body =
      some ({ c with onConfig := false },
        (if c.onConfig then 1 else 0),
        (if c.onConfig then [] else rebootSends))) ∧
    (size ≠ 0 → decodeConfig body = some cfg →
      runConfigCase c size body =
        some ({ c with onConfig := false },
          (if c.onConfig then 1 else 0),
          (if c.onConfig then [] else rebootSends))) := by
  have hd : ∀ x : HostConfig, dispatchConfig c x =
      ({ c with onConfig := false },
        (if c.onConfig then 1 else 0),
        (if c.onConfig then [] else rebootSends)) := by
    intro x
    by_cases h : c.onConfig <;> simp [dispatchConfig, h]
  constructor
  · simp [runConfigCase, hd]
  · intro hs hdec
    simp [runConfigCase, hs, hdec, hd]

/-- Claim C6, witness: a zero-length config response with a pending
callback invokes it once and sends nothing; with no pending callback, a
size-1 response whose 99-byte body decodes issues a reboot request. -/
theorem configCase_dispatch_witness :
    runConfigCase ⟨some 1, 0, 0, 0, true⟩ 0 [] =
      some (⟨some 1, 0, 0, 0, false⟩, 1, []) ∧
    runConfigCase ⟨some 1, 0, 0, 0, false⟩ 1 (List.replicate 99 0) =
      some (⟨some 1, 0, 0, 0, false⟩, 0, rebootSends) :=
  ⟨(configCase_dispatch ⟨some 1, 0, 0, 0, true⟩ 0 [] ⟨0, [], [], 0⟩).1,
   (configCase_dispatch ⟨some 1, 0, 0, 0, false⟩ 1 (List.replicate 99 0)
      ⟨0, [], [], 0⟩).2 (by decide) (by decide)⟩

/-! ### Claim C7 -/

/-- Claim C7, counterexample: for the host named `alpha` at address
`10.0.0.1:4242`, a failed dial returns the error text
`error connecting to alpha: connection refused` — built from the host
*name* — which does not contain the `ip:port` address anywhere, so the
error does not wrap the address. -/
theorem connect_error_lacks_address :
    (Connect ⟨"alpha".toList, "10.0.0.1:4242".toList⟩ ⟨none, 0, 0, 0, false⟩
        (DialResult.err "connection refused".toList)).2.1 =
      some (connectErrorMsg ⟨"alpha".toList, "10.0.0.1:4242".toList⟩
        "connection refused".toList) ∧
    containsSeq
      (connectErrorMsg ⟨"alpha".toList, "10.0.0.1:4242".toList⟩
        "connection refused".toList)
      "10.0.0.1:4242".toList = false := by
  constructor
  · rfl
  · decide

/-- Claim C7 (amended): on successful dial, `Connect` stores the handle,
resets the consecutive-timeout counter and the OTA transfer size to zero,
and the only traffic it emits is the single-byte core-dump-read probe (so
the probe precedes any other traffic); on dial failure it returns a
connection error that wraps the device's host *name* (not the `ip:port`
address). -/
theorem connect_spec (h : Host) (c : ClientState) (handle : Nat)
    (e : List Char) :
    Connect h c (DialResult.ok handle) =
      ({ c with conn := some handle, timeouts := 0, otaSize := 0 },
        none, [cmdCoredumpRead]) ∧
    Connect h c (DialResult.err e) = (c, some (connectErrorMsg h e), []) ∧
    containsSeq (connectErrorMsg h e) h.host = true := by
  refine ⟨rfl, rfl, ?_⟩
  unfold connectErrorMsg
  exact containsSeq_append _ _ _

/-! ### Claim C8 -/

/-- Claim C8: `Close` with no handle held returns nil and changes nothing;
with a handle held it nulls the `conn` field *before* the socket close
(first two trace events), returns the close error with the handle restored
and the state otherwise unchanged when the close fails, and leaves
`conn = nil` with no error when it succeeds; closing after a successful
close is always a no-op. -/
theorem close_spec (c : ClientState) (closeErr : Option Nat) :
    (c.conn = none → Close c closeErr = (c, none, [])) ∧
    (∀ handle, c.conn = some handle →
      ((Close c closeErr).2.2.take 2 =
        [CloseEvent.setConn none, CloseEvent.closeSocket handle]) ∧
      (∀ e, closeErr = some e →
        (Close c closeErr).1 = c ∧ (Close c closeErr).2.1 = some e) ∧
      (closeErr = none →
        (Close c closeErr).1 = { c with conn := none } ∧
        (Close c closeErr).2.1 = none)) ∧
    Close (Close c none).1 closeErr = ((Close c none).1, none, []) := by
  obtain ⟨conn, t, o, l, oc⟩ := c
  refine ⟨?_, ?_, ?_⟩
  · intro h
    simp only at h
    subst h
    rfl
  · intro handle h
    simp only at h
    subst h
    refine ⟨?_, ?_, ?_⟩
    · cases closeErr <;> rfl
    · intro e he
      subst he
      exact ⟨rfl, rfl⟩
    · intro he
      subst he
      exact ⟨rfl, rfl⟩
  · cases conn <;> rfl

/-- Claim C8, witness: at a concrete state holding handle 7, a failing
close (error id 3) leaves the state unchanged and returns the error, and
the trace nulls the field before the socket close. -/
theorem close_spec_witness :
    ((Close ⟨some 7, 0, 0, 0, false⟩ (some 3)).2.2.take 2 =
      [CloseEvent.setConn none, CloseEvent.closeSocket 7]) ∧
    (Close ⟨some 7, 0, 0, 0, false⟩ (some 3)).1 = ⟨some 7, 0, 0, 0, false⟩ ∧
    (Close ⟨some 7, 0, 0, 0, false⟩ (some 3)).2.1 = some 3 :=
  ⟨((close_spec ⟨some 7, 0, 0, 0, false⟩ (some 3)).2.1 7 rfl).1,
   ((close_spec ⟨some 7, 0, 0, 0, false⟩ (some 3)).2.1 7 rfl).2.1 3 rfl⟩

/-! ### Claim C9 -/

/-- Claim C9: the OTA-progress percentage division is executed only behind
the `isFlashingOTA` guard, which entails `otaSize > 0`, so it never
divides by zero; under the guard the handler refreshes the liveness
timestamp and computes `offset * 100 / otaSize`. -/
theorem otaProgress_div_safe (c : ClientState) (now offset : Nat)
    (h : isFlashingOTA c now = true) :
    0 < c.otaSize ∧
    runOTAProgress c now offset =
      ({ c with otaLastMessage := now }, some (offset * 100 / c.otaSize)) := by
  have hpos : 0 < c.otaSize := by
    have h' := h
    simp only [isFlashingOTA, Bool.and_eq_true, decide_eq_true_eq] at h'
    exact h'.1
  exact ⟨hpos, by simp [runOTAProgress, h]⟩

/-- Claim C9, witness: with `otaSize = 100` and offset 50 the guard holds,
the divisor is positive, and the computed percentage is exactly 50. -/
theorem otaProgress_div_safe_witness :
    0 < (100 : Nat) ∧
    runOTAProgress ⟨some 1, 0, 100, 0, false⟩ 0 50 =
      (⟨some 1, 0, 100, 0, false⟩, some 50) :=
  otaProgress_div_safe ⟨some 1, 0, 100, 0, false⟩ 0 50 (by decide)

/-! ### Claim C10 -/

/-- Claim C10, counterexample: the one-byte blob `[0]` is non-empty, so
the dispatcher hands it to `DisplayCoreDump`, yet the magic-stripping
slice `data[4:]` is out of bounds there (`4 > 1`) — in Go this is a slice
bounds panic.  The claim "every non-empty blob handed to the workflow has
at least 4 bytes" is therefore false. -/
theorem coredump_short_blob_slice_oob :
    coredumpPassedToWorkflow [0] = true ∧ sliceFrom [0] 4 = none := by
  decide

/-- Claim C10 (amended): the dispatcher hands exactly the non-empty blobs
to `DisplayCoreDump`, and for a passed blob the magic-stripping slice
`data[4:]` is in bounds iff the blob has at least 4 bytes (in which case
it equals the bytes after the 4-byte magic); non-empty blobs of length
1-3 are passed as well and the slice is out of bounds for them. -/
theorem coredump_slice_bounds (blob : List Nat) :
    (coredumpPassedToWorkflow blob = true ↔ blob ≠ []) ∧
    ((sliceFrom blob 4).isSome = true ↔ 4 ≤ blob.length) ∧
    (4 ≤ blob.length → sliceFrom blob 4 = some (blob.drop 4)) := by
  refine ⟨?_, ?_, ?_⟩
  · by_cases h : blob = []
    · subst h
      simp [coredumpPassedToWorkflow, runCoredumpRead]
    · simp [coredumpPassedToWorkflow, runCoredumpRead, List.length_eq_zero, h]
  · by_cases h : 4 ≤ blob.length <;> simp [sliceFrom, h]
  · intro h
    simp [sliceFrom, h]

/-- Claim C10, witness: a 5-byte blob is passed to the workflow and the
slice keeps exactly the trailing byte after the 4-byte magic. -/
theorem coredump_slice_bounds_witness :
    coredumpPassedToWorkflow [9, 9, 9, 9, 5] = true ∧
    sliceFrom [9, 9, 9, 9, 5] 4 = some [5] :=
  ⟨(coredump_slice_bounds [9, 9, 9, 9, 5]).1.mpr (by decide),
   (coredump_slice_bounds [9, 9, 9, 9, 5]).2.2 (by decide)⟩

end IdfWmonitor
